import Mathlib

/-!
Verification development for the `cdumay_http_client` repository.

The definitions below are a shallow embedding of the Rust sources:
  * `src/utils.rs`            — `build_url`, `merge_headers`
  * `src/errors/mod.rs`       — `http_error_serialize`, `http_resp_serialise`
  * `src/errors/client.rs`    — client error kinds
  * `src/errors/rest.rs`      — JSON error kinds, `json_error_serialize`
  * `src/client_http.rs`      — `BaseClient::do_request`, `HttpClient::new`
  * `src/client_rest.rs`      — `RestClient::new`, `RestClient::get`

The HTTP status → error-kind table lives in `src/errors/http.rs`, which is
declared (`pub mod http;`) but not present in the source tree; it is modelled
from the spec's error-classifier contract, corroborated by the identical
legacy registry `HttpStatusCodeErrors` in the in-repo `src/errors.rs`.

Machine integers (`u64` retry counters, status codes) are modelled as `Nat`:
none of the modelled code paths can overflow (counters are bounded by the
configured attempt count, status codes by 599).  Fallible Rust code returning
`Result` is modelled with `Except`.  The side effects relevant to the claims
(transport calls, sleeps) are made explicit as an event trace returned
alongside the result.
-/

namespace CdumayHttp

/-- `serde_value::Value` restricted to the variants the client actually
stores in an execution context: `Value::String` and `Value::U64`
(see `src/client_http.rs`, context seeding and the `"try"` detail). -/
inductive Value where
  | str (s : String)
  | u64 (n : Nat)
deriving DecidableEq, Repr

/-- `cdumay_context::Context`: a string-keyed map of diagnostic values.
Modelled as an association list; `ctxInsert` shadows older bindings, and
`ctxGet` reads the most recent one, which is observationally the
map-overwrite semantics of the Rust `Context::insert`. -/
abbrev ContextMap := List (String × Value)

def ctxInsert (ctx : ContextMap) (k : String) (v : Value) : ContextMap :=
  (k, v) :: ctx

def ctxGet (ctx : ContextMap) (k : String) : Option Value :=
  match ctx with
  | [] => none
  | (k', v) :: rest => if k' = k then some v else ctxGet rest k

/-- `cdumay_error::ErrorKind`: `(msgid, code, message)` triples declared with
`define_kinds!` in `src/errors/client.rs` and `src/errors/rest.rs`. -/
structure ErrorKind where
  code : Nat
  msgid : String
  message : String
deriving DecidableEq, Repr

/-- `cdumay_error::Error`: kind, message and optional details.
`set_details` yields `some`; an error built with only `set_message`
(e.g. the `InvalidUrl` raised by `build_url`) has `details = none`. -/
structure Error where
  kind : ErrorKind
  message : String
  details : Option ContextMap
deriving DecidableEq, Repr

/- Kinds from `define_kinds!` in `src/errors/client.rs`. -/

def UNKNOWN_ERROR : ErrorKind := ⟨500, "Err-79483", "Unexpected error"⟩

def INVALID_URL : ErrorKind := ⟨400, "Err-27071", "Invalid url"⟩

def GENERIC_HTTP_CLIENT_ERROR : ErrorKind := ⟨500, "Err-05192", "Generic HTTP client error"⟩

def CONTENT_ERROR : ErrorKind :=
  ⟨400, "Err-45973", "The error is related to the request or response body"⟩

def NETWORK_CONNECTION : ErrorKind := ⟨500, "Err-64752", "The error is related to connect"⟩

def REQUEST_ERROR : ErrorKind := ⟨500, "Err-37984", "The error is related to the request"⟩

/- Kinds from `define_kinds!` in `src/errors/rest.rs`. -/

def IOError : ErrorKind := ⟨500, "JSON-11553", "IO Error"⟩

def SyntaxError : ErrorKind := ⟨400, "JSON-57633", "Syntax Error"⟩

def DataError : ErrorKind := ⟨400, "JSON-15852", "Invalid JSON data"⟩

def EOF : ErrorKind := ⟨500, "JSON-15853", "Reached the end of the input data"⟩

/-- Modelled from the spec: the HTTP status → `ErrorKind` table of the missing
`src/errors/http.rs` ("exhaustive table of standard HTTP status codes
3xx/4xx/5xx, each with a distinct stable identifier", spec §4.5).  The
entries reproduce the identical legacy registry `HttpStatusCodeErrors`
in the in-repo `src/errors.rs`. -/
def statusKinds : List (Nat × ErrorKind) := [
  (300, ⟨300, "Err-11298", "Multiple Choices"⟩),
  (301, ⟨301, "Err-23108", "Moved Permanently"⟩),
  (302, ⟨302, "Err-07132", "Found"⟩),
  (303, ⟨303, "Err-16746", "See Other"⟩),
  (304, ⟨304, "Err-21556", "Not Modified"⟩),
  (305, ⟨305, "Err-31839", "Use Proxy"⟩),
  (307, ⟨307, "Err-25446", "Temporary Redirect"⟩),
  (308, ⟨308, "Err-12280", "Permanent Redirect"⟩),
  (400, ⟨400, "Err-26760", "Bad Request"⟩),
  (401, ⟨401, "Err-08059", "Unauthorized"⟩),
  (402, ⟨402, "Err-18076", "Payment Required"⟩),
  (403, ⟨403, "Err-23134", "Forbidden"⟩),
  (404, ⟨404, "Err-18430", "Not Found"⟩),
  (405, ⟨405, "Err-23585", "Method Not Allowed"⟩),
  (406, ⟨406, "Err-04289", "Not Acceptable"⟩),
  (407, ⟨407, "Err-17336", "Proxy Authentication Required"⟩),
  (408, ⟨408, "Err-00565", "Request Timeout"⟩),
  (409, ⟨409, "Err-08442", "Conflict"⟩),
  (410, ⟨410, "Err-19916", "Gone"⟩),
  (411, ⟨411, "Err-09400", "Length Required"⟩),
  (412, ⟨412, "Err-22509", "Precondition Failed"⟩),
  (413, ⟨413, "Err-10591", "Payload Too Large"⟩),
  (414, ⟨414, "Err-01377", "URI Too Long"⟩),
  (415, ⟨415, "Err-12512", "Unsupported Media Type"⟩),
  (416, ⟨416, "Err-21696", "Range Not Satisfiable"⟩),
  (417, ⟨417, "Err-16872", "Expectation Failed"⟩),
  (418, ⟨418, "Err-23719", "I am a teapot"⟩),
  (421, ⟨421, "Err-26981", "Misdirected Request"⟩),
  (422, ⟨422, "Err-12568", "Unprocessable Entity"⟩),
  (423, ⟨423, "Err-32695", "Locked"⟩),
  (424, ⟨424, "Err-19693", "Failed Dependency"⟩),
  (426, ⟨426, "Err-22991", "Upgrade Required"⟩),
  (428, ⟨428, "Err-02452", "Precondition Required"⟩),
  (429, ⟨429, "Err-12176", "Too Many Requests"⟩),
  (431, ⟨431, "Err-07756", "Request Header Fields Too Large"⟩),
  (451, ⟨451, "Err-12136", "Unavailable For Legal Reasons"⟩),
  (500, ⟨500, "Err-09069", "Internal Server Error"⟩),
  (501, ⟨501, "Err-03394", "Not Implemented"⟩),
  (502, ⟨502, "Err-19734", "Bad Gateway"⟩),
  (503, ⟨503, "Err-18979", "Service Unavailable"⟩),
  (504, ⟨504, "Err-17595", "Gateway Timeout"⟩),
  (505, ⟨505, "Err-01625", "HTTP Version Not Supported"⟩),
  (506, ⟨506, "Err-28382", "Variant Also Negotiates"⟩),
  (507, ⟨507, "Err-32132", "Insufficient Storage"⟩),
  (508, ⟨508, "Err-30770", "Loop Detected"⟩),
  (510, ⟨510, "Err-19347", "Not Extended"⟩),
  (511, ⟨511, "Err-31948", "Network Authentication Required"⟩)]

/-- Modelled from the spec: kind for a given status code.  The spec treats an
unmapped status as a programming-contract violation (§4.5, §7); the legacy
in-repo registry panics there.  The fallback `UNKNOWN_ERROR` makes the
function total; no claim exercises an unmapped status. -/
def statusKind (status : Nat) : ErrorKind :=
  match (statusKinds.find? fun p => p.1 == status) with
  | some p => p.2
  | none => UNKNOWN_ERROR

def UNPROCESSABLE_ENTITY : ErrorKind := ⟨422, "Err-12568", "Unprocessable Entity"⟩

/-- Modelled from the spec: `http::from_status` of the missing
`src/errors/http.rs`, as used by `http_resp_serialise` and
`http_error_serialize` in `src/errors/mod.rs`: the status picks the kind,
the supplied text becomes the message, the supplied context the details. -/
def from_status (status : Nat) (msg : String) (ctx : ContextMap) : Error :=
  ⟨statusKind status, msg, some ctx⟩

/-- The observable shape of a `reqwest::Error`, as interrogated by
`http_error_serialize` in `src/errors/mod.rs`: an optional associated
status code plus the category predicates. -/
structure ReqwestError where
  status : Option Nat
  is_builder : Bool
  is_body : Bool
  is_decode : Bool
  is_connect : Bool
  is_timeout : Bool
  is_request : Bool
  msg : String
deriving DecidableEq, Repr

/-- `http_error_serialize` (`src/errors/mod.rs` lines 17-50): classify a
transport-level `reqwest::Error`.  Note the `is_request` arm builds a
`NetworkError` (kind `NETWORK_CONNECTION`), exactly as the source does. -/
def http_error_serialize (error : ReqwestError) (context : Option ContextMap) : Error :=
  let ctx := context.getD []
  match error.status with
  | some code => from_status code error.msg ctx
  | none =>
    if error.is_builder then ⟨GENERIC_HTTP_CLIENT_ERROR, error.msg, some ctx⟩
    else if error.is_body || error.is_decode then ⟨CONTENT_ERROR, error.msg, some ctx⟩
    else if error.is_connect || error.is_timeout then ⟨NETWORK_CONNECTION, error.msg, some ctx⟩
    else if error.is_request then ⟨NETWORK_CONNECTION, error.msg, some ctx⟩
    else ⟨UNKNOWN_ERROR, error.msg, some ctx⟩

/-- `http_resp_serialise` (`src/errors/mod.rs` lines 9-15): classify a
received non-success response; `resp.text().unwrap_or_default()` becomes
the message. -/
def http_resp_serialise (status : Nat) (text : Except ReqwestError String)
    (context : Option ContextMap) : Error :=
  from_status status (match text with | .ok s => s | .error _ => "") (context.getD [])

/-- A `reqwest::Url` reduced to the structure `build_url` manipulates:
hierarchical-or-not flag (`path_segments_mut` fails on non-hierarchical
URLs), path segments and query pairs. -/
structure UrlM where
  scheme : String
  host : String
  cannot_be_base : Bool
  pathSegments : List String
  query : List (String × String)
deriving DecidableEq, Repr

/-- Lexicographic comparison of character lists, code point by code point:
the order `Ord` gives Rust `String`s (byte-wise comparison of UTF-8 agrees
with code-point order). -/
def charsLe : List Char → List Char → Bool
  | [], _ => true
  | _ :: _, [] => false
  | a :: as, b :: bs => if a < b then true else if b < a then false else charsLe as bs

def strLe (a b : String) : Bool := charsLe a.toList b.toList

/-- Key order used by `sort_by_key` in `src/utils.rs`. -/
def keyLe (p q : String × String) : Prop := strLe p.1 q.1 = true

instance : DecidableRel keyLe := fun p q => inferInstanceAs (Decidable (_ = true))

/-- Sorting of query parameters by key (`sorted_entries.sort_by_key` in
`src/utils.rs`).  Rust's stable sort and insertion sort agree on any list
with pairwise-distinct keys, which `HashMap` iteration guarantees. -/
def sortByKey (l : List (String × String)) : List (String × String) :=
  List.insertionSort keyLe l

/-- `path.split("/")` on the character list: splitting on a separator,
keeping empty pieces (they are filtered out by `build_url` afterwards,
matching the Rust `filter(|part| part.len() != 0)`). -/
def splitSlashAux : List Char → List Char → List String
  | [], acc => [String.mk acc.reverse]
  | c :: rest, acc =>
    if c = '/' then String.mk acc.reverse :: splitSlashAux rest []
    else splitSlashAux rest (c :: acc)

def splitSlash (path : String) : List String := splitSlashAux path.toList []

/-- The URL produced by a successful `build_url` (`src/utils.rs` lines
172-187): split the path on `/`, drop empty segments, append; then append
the query pairs sorted by key. -/
def builtUrl (root : UrlM) (path : String) (params : Option (List (String × String))) : UrlM :=
  let spath := (splitSlash path).filter fun part => part.length ≠ 0
  let url := { root with pathSegments := root.pathSegments ++ spath }
  match params with
  | none => url
  | some data => { url with query := url.query ++ sortByKey data }

/-- `build_url` (`src/utils.rs`): fails with `InvalidUrl` (message only, no
details) when the root does not support path segments. -/
def build_url (root : UrlM) (path : String) (params : Option (List (String × String))) :
    Except Error UrlM :=
  if root.cannot_be_base then .error ⟨INVALID_URL, "Cannot build url", none⟩
  else .ok (builtUrl root path params)

/-- Rendering of a built URL to its string form (`url.to_string()` /
`url.as_str()`).  Query pairs are rendered `k=v` joined by `&`;
`append_pair` percent-encoding is the identity on the unreserved
characters appearing in every claim. -/
def renderQuery (q : List (String × String)) : String :=
  String.intercalate "&" (q.map fun p => p.1 ++ "=" ++ p.2)

def renderUrl (u : UrlM) : String :=
  u.scheme ++ "://" ++ u.host ++ "/" ++ String.intercalate "/" u.pathSegments ++
    (if u.query.isEmpty then "" else "?" ++ renderQuery u.query)

instance {ε α : Type} [DecidableEq ε] [DecidableEq α] : DecidableEq (Except ε α) := fun a b =>
  match a, b with
  | .error e, .error f =>
    if h : e = f then .isTrue (h ▸ rfl) else .isFalse fun hh => h (by cases hh; rfl)
  | .ok x, .ok y =>
    if h : x = y then .isTrue (h ▸ rfl) else .isFalse fun hh => h (by cases hh; rfl)
  | .error _, .ok _ => .isFalse fun hh => by cases hh
  | .ok _, .error _ => .isFalse fun hh => by cases hh

/-- Outcome of one `req.send()` on the transport collaborator: either the
send itself failed (`reqwest::Error`, no response received), or a response
arrived carrying a status and a body-read outcome (`resp.text()` may fail). -/
inductive SendOutcome where
  | failure (e : ReqwestError)
  | response (status : Nat) (text : Except ReqwestError String)
deriving DecidableEq, Repr

/-- The external transport as seen by `do_request`: the result of
`Client::builder().build()` (`none` = success), whether `req.try_clone()`
succeeds (deterministic for a given request body), and the per-attempt
send outcome (attempts are numbered from 1). -/
structure Transport where
  builder_error : Option ReqwestError
  cloneable : Bool
  outcome : Nat → SendOutcome

/-- `reqwest::StatusCode::is_success`: 2xx. -/
def statusIsSuccess (s : Nat) : Bool := 200 ≤ s && s < 300

/-- Observable side effects of `do_request`: one `call` per issued transport
request, one `sleep` per executed `thread::sleep(retry_delay)`. -/
inductive Event where
  | call (attempt : Nat)
  | sleep (secs : Nat)
deriving DecidableEq, Repr

def countCalls (evs : List Event) : Nat :=
  (evs.filter fun e => match e with | .call _ => true | .sleep _ => false).length

def countSleeps (evs : List Event) : Nat :=
  (evs.filter fun e => match e with | .call _ => false | .sleep _ => true).length

/-- Result of the `for req_try in 1..=retry_number` loop body sequence:
either an early `return` with a final result, or exhaustion with the
`last_error` accumulator. -/
inductive LoopResult where
  | done (r : Except Error String)
  | exhausted (lastError : Option Error)
deriving Repr

/-- The retry loop of `do_request` (`src/client_http.rs` lines 291-343),
one constructor case per remaining attempt.  Per iteration: clone the
request (failure returns a `ClientBuilderError` carrying the context);
send (a send failure is classified with context `None` — see
`_request_wrapper` — and returned via `?`); on 2xx return the body text
(a text-read failure is classified with the seeded context); on non-2xx
build the status error with `"try" = attempt` added to the context,
return it at once when its kind is in `no_retry_on`, otherwise store it
in `last_error`, sleep `retry_delay` and continue. -/
def runLoop (tr : Transport) (delay : Nat) (no_retry_on : Option (List ErrorKind))
    (ctx : ContextMap) : Nat → Nat → Option Error → LoopResult × List Event
  | 0, _, lastError => (.exhausted lastError, [])
  | rem + 1, attempt, _lastError =>
    if tr.cloneable then
      match tr.outcome attempt with
      | .failure e => (.done (.error (http_error_serialize e none)), [.call attempt])
      | .response st txt =>
        if statusIsSuccess st then
          match txt with
          | .ok s => (.done (.ok s), [.call attempt])
          | .error e => (.done (.error (http_error_serialize e (some ctx))), [.call attempt])
        else
          let err := http_resp_serialise st txt (some (ctxInsert ctx "try" (.u64 attempt)))
          if err.kind ∈ no_retry_on.getD [] then
            (.done (.error err), [.call attempt])
          else
            let rest := runLoop tr delay no_retry_on ctx rem (attempt + 1) (some err)
            (rest.1, .call attempt :: .sleep delay :: rest.2)
    else
      (.done (.error ⟨GENERIC_HTTP_CLIENT_ERROR, "Internal error, failed to clone request",
        some ctx⟩), [])

/-- The execution context seeded at the start of `do_request`: the caller's
context (or a fresh one) extended with `url` and `method`. -/
def seedContext (context : Option ContextMap) (url : UrlM) (method : String) : ContextMap :=
  ctxInsert (ctxInsert (context.getD []) "url" (.str (renderUrl url))) "method" (.str method)

/-- `BaseClient::do_request` (`src/client_http.rs` lines 257-368), with the
transport collaborator made explicit and the side effects returned as an
event trace.  Build the URL (fail fast with `InvalidUrl`), seed the
context, build the per-call client (a builder failure is classified with
the seeded context), run the retry loop, and on exhaustion return
`last_error` — or, were none recorded, an internal `ClientBuilderError`. -/
def do_request (root : UrlM) (method : String) (path : String)
    (params : Option (List (String × String)))
    (retry_number retry_delay : Nat)
    (no_retry_on : Option (List ErrorKind))
    (context : Option ContextMap)
    (tr : Transport) : Except Error String × List Event :=
  match build_url root path params with
  | .error e => (.error e, [])
  | .ok url =>
    let ctx := seedContext context url method
    match tr.builder_error with
    | some e => (.error (http_error_serialize e (some ctx)), [])
    | none =>
      let run := runLoop tr retry_delay no_retry_on ctx retry_number 1 none
      match run.1 with
      | .done r => (r, run.2)
      | .exhausted (some err) => (.error err, run.2)
      | .exhausted none =>
        (.error ⟨GENERIC_HTTP_CLIENT_ERROR, "Internal error, failed to clone request",
          some ctx⟩, run.2)

/-- serde_json's `Error::classify` categories (`Category::{Io, Syntax, Data,
Eof}` in `src/errors/rest.rs`). -/
inductive JsonCategory where
  | io
  | synt
  | data
  | eof
deriving DecidableEq, Repr

/-- A `serde_json::Error` as consumed by `json_error_serialize`. -/
structure JsonError where
  category : JsonCategory
  msg : String
deriving DecidableEq, Repr

/-- `json_error_serialize` (`src/errors/rest.rs` lines 19-39). -/
def json_error_serialize (err : JsonError) (context : Option ContextMap) : Error :=
  let ctx := context.getD []
  match err.category with
  | .io => ⟨IOError, err.msg, some ctx⟩
  | .synt => ⟨SyntaxError, err.msg, some ctx⟩
  | .data => ⟨DataError, err.msg, some ctx⟩
  | .eof => ⟨EOF, err.msg, some ctx⟩

/-- `RestClient::create_context` (`src/client_rest.rs` lines 396-408):
server, path and method. -/
def create_context (server path method : String) : ContextMap :=
  ctxInsert (ctxInsert (ctxInsert [] "server" (.str server)) "path" (.str path))
    "method" (.str method)

/-- `RestClient::get` (`src/client_rest.rs` lines 430-453): delegate to
`do_request` for the raw text, then deserialize into `R`; a
deserialization failure is classified through `json_error_serialize`
with the caller's context or, absent one, `create_context`.  The decoder
(`serde_json::from_str` at type `R`) is the external serialization
collaborator, passed in as `decode`. -/
def rest_get {R : Type} (root : UrlM) (path : String)
    (params : Option (List (String × String)))
    (retry_number retry_delay : Nat)
    (no_retry_on : Option (List ErrorKind))
    (context : Option ContextMap)
    (tr : Transport)
    (decode : String → Except JsonError R) : Except Error R :=
  match (do_request root "GET" path params retry_number retry_delay no_retry_on context tr).1 with
  | .error e => .error e
  | .ok body =>
    match decode body with
    | .ok r => .ok r
    | .error je =>
      .error (json_error_serialize je
        (some (context.getD (create_context (renderUrl root) path "GET"))))

/-- `reqwest::header::HeaderValue::from_str` validity: visible ASCII,
space or horizontal tab. -/
def isValidHeaderValue (s : String) : Bool :=
  s.toList.all fun c => c.toNat = 9 || (32 ≤ c.toNat && c.toNat ≠ 127)

/-- The configuration record shared by `HttpClient` and `RestClient`
(`src/client_http.rs` lines 452-461, `src/client_rest.rs` lines 253-262).
Headers are modelled as name/value pairs; the boxed `Authentication`
trait object is not needed by any claim and is omitted. -/
structure ClientM where
  url_root : UrlM
  timeout : Nat
  headers : List (String × String)
  ssl_verify : Bool
  retry_number : Nat
  retry_delay : Nat
deriving Repr

/-- `HttpClient::new` (`src/client_http.rs` lines 464-497).  `parsed` is the
outcome of `Url::parse` on the trimmed root string (the URL parser is an
external collaborator); `ua` is the `CARGO_PKG_NAME/CARGO_PKG_VERSION`
user-agent string.  On success the default header set holds exactly the
`User-Agent` entry; defaults are 10s timeout, 10 retries, 30s delay,
SSL verification on. -/
def HttpClient_new (raw : String) (parsed : Option UrlM) (ua : String) :
    Except Error ClientM :=
  match parsed with
  | none => .error ⟨INVALID_URL, "Failed to parse URL", some [("url", .str raw)]⟩
  | some u =>
    if isValidHeaderValue ua then
      .ok ⟨u, 10, [("user-agent", ua)], true, 10, 30⟩
    else
      .error ⟨CONTENT_ERROR, "invalid header value", none⟩

/-- `RestClient::new` (`src/client_rest.rs` lines 284-319): identical to
`HttpClient::new` except that the default header set additionally holds
`Content-Type: application/json` and `Accept: application/json`. -/
def RestClient_new (raw : String) (parsed : Option UrlM) (ua : String) :
    Except Error ClientM :=
  match parsed with
  | none => .error ⟨INVALID_URL, "Failed to parse URL", some [("url", .str raw)]⟩
  | some u =>
    if isValidHeaderValue ua then
      .ok ⟨u, 10, [("user-agent", ua), ("content-type", "application/json"),
        ("accept", "application/json")], true, 10, 30⟩
    else
      .error ⟨CONTENT_ERROR, "invalid header value", none⟩

/-- Reading a key out of an error's details (maps `err.details.get(key)` in
the repository's tests). -/
def detailGet (e : Error) (k : String) : Option Value :=
  ctxGet (e.details.getD []) k

/-- A concrete hierarchical root URL used by witnesses:
`https://api.example.com`. -/
def exampleRoot : UrlM := ⟨"https", "api.example.com", false, [], []⟩

theorem countCalls_nil : countCalls [] = 0 := rfl

theorem countCalls_call_cons (a : Nat) (evs : List Event) :
    countCalls (.call a :: evs) = countCalls evs + 1 := by
  simp [countCalls, List.filter]

theorem countCalls_sleep_cons (d : Nat) (evs : List Event) :
    countCalls (.sleep d :: evs) = countCalls evs := by
  simp [countCalls, List.filter]

theorem countSleeps_nil : countSleeps [] = 0 := rfl

theorem countSleeps_call_cons (a : Nat) (evs : List Event) :
    countSleeps (.call a :: evs) = countSleeps evs := by
  simp [countSleeps, List.filter]

theorem countSleeps_sleep_cons (d : Nat) (evs : List Event) :
    countSleeps (.sleep d :: evs) = countSleeps evs + 1 := by
  simp [countSleeps, List.filter]

/-- The error built for a non-success response on a given attempt: the
status error with the attempt number added to the context as `"try"`. -/
def attemptError (st : Nat) (txt : Except ReqwestError String) (ctx : ContextMap)
    (attempt : Nat) : Error :=
  http_resp_serialise st txt (some (ctxInsert ctx "try" (.u64 attempt)))

theorem attemptError_kind (st : Nat) (txt : Except ReqwestError String) (ctx : ContextMap)
    (attempt : Nat) : (attemptError st txt ctx attempt).kind = statusKind st := rfl

/-- One unfolding step of the loop on a non-success, non-exempt response:
one call, one sleep, then the tail with the attempt's error stored. -/
theorem runLoop_step_fail (tr : Transport) (delay : Nat) (nro : Option (List ErrorKind))
    (ctx : ContextMap) (rem attempt : Nat) (lastErr : Option Error)
    (st : Nat) (txt : Except ReqwestError String)
    (hclone : tr.cloneable = true)
    (ho : tr.outcome attempt = .response st txt)
    (hs : statusIsSuccess st = false)
    (hk : statusKind st ∉ nro.getD []) :
    runLoop tr delay nro ctx (rem + 1) attempt lastErr =
      ((runLoop tr delay nro ctx rem (attempt + 1)
          (some (attemptError st txt ctx attempt))).1,
        .call attempt :: .sleep delay ::
          (runLoop tr delay nro ctx rem (attempt + 1)
            (some (attemptError st txt ctx attempt))).2) := by
  simp only [runLoop, hclone, if_true, ho, hs, Bool.false_eq_true, if_false]
  rw [if_neg (by simpa [http_resp_serialise, from_status] using hk)]
  rfl

/-- When every attempt in the window yields a non-success response whose
kind is not retry-exempt, the loop runs through all remaining attempts,
stores the error of each one, and exhausts with the last attempt's error;
it issues one call and one sleep per attempt (the sleep of the final
iteration included, as in the source). -/
theorem runLoop_all_fail (tr : Transport) (delay : Nat) (nro : Option (List ErrorKind))
    (ctx : ContextMap) (st : Nat → Nat) (txt : Nat → Except ReqwestError String) :
    ∀ (rem attempt : Nat) (lastErr : Option Error),
      tr.cloneable = true →
      (∀ i, attempt ≤ i → i < attempt + (rem + 1) →
        tr.outcome i = .response (st i) (txt i) ∧ statusIsSuccess (st i) = false ∧
          statusKind (st i) ∉ nro.getD []) →
      (runLoop tr delay nro ctx (rem + 1) attempt lastErr).1 =
        .exhausted (some (attemptError (st (attempt + rem)) (txt (attempt + rem)) ctx
          (attempt + rem))) ∧
      countCalls (runLoop tr delay nro ctx (rem + 1) attempt lastErr).2 = rem + 1 ∧
      countSleeps (runLoop tr delay nro ctx (rem + 1) attempt lastErr).2 = rem + 1 := by
  intro rem
  induction rem with
  | zero =>
    intro attempt lastErr hclone hfail
    obtain ⟨ho, hs, hk⟩ := hfail attempt (le_refl _) (by omega)
    rw [runLoop_step_fail tr delay nro ctx 0 attempt lastErr _ _ hclone ho hs hk]
    refine ⟨rfl, ?_, ?_⟩
    · simp [runLoop, countCalls_call_cons, countCalls_sleep_cons, countCalls_nil]
    · simp [runLoop, countSleeps_call_cons, countSleeps_sleep_cons, countSleeps_nil]
  | succ r ih =>
    intro attempt lastErr hclone hfail
    obtain ⟨ho, hs, hk⟩ := hfail attempt (le_refl _) (by omega)
    have hfail' : ∀ i, attempt + 1 ≤ i → i < (attempt + 1) + (r + 1) →
        tr.outcome i = .response (st i) (txt i) ∧ statusIsSuccess (st i) = false ∧
          statusKind (st i) ∉ nro.getD [] := by
      intro i h1 h2
      exact hfail i (by omega) (by omega)
    have hrec := ih (attempt + 1)
      (some (attemptError (st attempt) (txt attempt) ctx attempt)) hclone hfail'
    rw [runLoop_step_fail tr delay nro ctx (r + 1) attempt lastErr _ _ hclone ho hs hk]
    have hidx : attempt + 1 + r = attempt + (r + 1) := by omega
    rw [hidx] at hrec
    refine ⟨hrec.1, ?_, ?_⟩
    · rw [countCalls_call_cons, countCalls_sleep_cons, hrec.2.1]
    · rw [countSleeps_call_cons, countSleeps_sleep_cons, hrec.2.2]

/-- A permanently failing endpoint (non-success, non-exempt status on every
attempt): `do_request` returns the final attempt's classified error after
N calls and N sleeps. -/
theorem do_request_all_fail (root : UrlM) (method path : String)
    (params : Option (List (String × String))) (N delay : Nat)
    (nro : Option (List ErrorKind)) (context : Option ContextMap) (tr : Transport)
    (st : Nat → Nat) (txt : Nat → Except ReqwestError String)
    (hroot : root.cannot_be_base = false)
    (hbuilder : tr.builder_error = none)
    (hclone : tr.cloneable = true)
    (hN : 1 ≤ N)
    (hfail : ∀ i, 1 ≤ i → i ≤ N →
      tr.outcome i = .response (st i) (txt i) ∧ statusIsSuccess (st i) = false ∧
        statusKind (st i) ∉ nro.getD []) :
    (do_request root method path params N delay nro context tr).1 =
      .error (attemptError (st N) (txt N)
        (seedContext context (builtUrl root path params) method) N) ∧
    countCalls (do_request root method path params N delay nro context tr).2 = N ∧
    countSleeps (do_request root method path params N delay nro context tr).2 = N := by
  obtain ⟨r, rfl⟩ : ∃ r, N = r + 1 := ⟨N - 1, by omega⟩
  have hall := runLoop_all_fail tr delay nro
    (seedContext context (builtUrl root path params) method) st txt r 1 none hclone
    (by intro i h1 h2; exact hfail i h1 (by omega))
  have hidx : 1 + r = r + 1 := by omega
  rw [hidx] at hall
  simp only [do_request, build_url, hroot, Bool.false_eq_true, if_false, hbuilder,
    hall.1, hall.2.1, hall.2.2]
  exact ⟨trivial, trivial, trivial⟩

/-- C1: for every client whose retry_number is N ≥ 1 and every transport
returning a non-success HTTP status on all attempts, none of whose kinds is
retry-exempt, `do_request` issues exactly N transport calls and returns
the classified error produced from the final (N-th) attempt. -/
theorem do_request_retry_bound (root : UrlM) (method path : String)
    (params : Option (List (String × String))) (N delay : Nat)
    (nro : Option (List ErrorKind)) (context : Option ContextMap) (tr : Transport)
    (st : Nat → Nat) (txt : Nat → Except ReqwestError String)
    (hroot : root.cannot_be_base = false)
    (hbuilder : tr.builder_error = none)
    (hclone : tr.cloneable = true)
    (hN : 1 ≤ N)
    (hfail : ∀ i, 1 ≤ i → i ≤ N →
      tr.outcome i = .response (st i) (txt i) ∧ statusIsSuccess (st i) = false ∧
        statusKind (st i) ∉ nro.getD []) :
    (do_request root method path params N delay nro context tr).1 =
      .error (attemptError (st N) (txt N)
        (seedContext context (builtUrl root path params) method) N) ∧
    countCalls (do_request root method path params N delay nro context tr).2 = N := by
  have h := do_request_all_fail root method path params N delay nro context tr st txt
    hroot hbuilder hclone hN hfail
  exact ⟨h.1, h.2.1⟩

/-- Witness for C1 at a concrete input: three attempts all answering
HTTP 500. -/
theorem do_request_retry_bound_witness :
    (do_request exampleRoot "GET" "/users" none 3 1 none none
        ⟨none, true, fun _ => .response 500 (.ok "boom")⟩).1 =
      .error (attemptError 500 (.ok "boom")
        (seedContext none (builtUrl exampleRoot "/users" none) "GET") 3) ∧
    countCalls (do_request exampleRoot "GET" "/users" none 3 1 none none
        ⟨none, true, fun _ => .response 500 (.ok "boom")⟩).2 = 3 :=
  do_request_retry_bound exampleRoot "GET" "/users" none 3 1 none none
    ⟨none, true, fun _ => .response 500 (.ok "boom")⟩ (fun _ => 500) (fun _ => .ok "boom")
    rfl rfl rfl (by omega)
    (fun i _ _ => ⟨rfl, rfl, List.not_mem_nil _⟩)

/-- C7 counterexample: with retry_number = 2 and both attempts failing with
a non-exempt status, the trace contains 2 sleeps, not 2 - 1 = 1: the
source sleeps after every failed non-exempt attempt, the final one
included. -/
theorem do_request_sleep_cex :
    countSleeps (do_request exampleRoot "GET" "/sdq" none 2 1 none none
      ⟨none, true, fun _ => .response 422 (.ok "err-body")⟩).2 = 2 ∧ (2 : Nat) ≠ 2 - 1 := by
  constructor
  · decide
  · decide

/-- C7 (amended): over one `do_request` execution with retry_number = N in
which all N attempts fail with non-exempt status errors, a sleep of
retry_delay occurs after every failed attempt — the final one included —
for a total of exactly N sleeps (not N - 1; the loop body sleeps before
testing whether attempts remain). -/
theorem do_request_sleep_count (root : UrlM) (method path : String)
    (params : Option (List (String × String))) (N delay : Nat)
    (nro : Option (List ErrorKind)) (context : Option ContextMap) (tr : Transport)
    (st : Nat → Nat) (txt : Nat → Except ReqwestError String)
    (hroot : root.cannot_be_base = false)
    (hbuilder : tr.builder_error = none)
    (hclone : tr.cloneable = true)
    (hN : 1 ≤ N)
    (hfail : ∀ i, 1 ≤ i → i ≤ N →
      tr.outcome i = .response (st i) (txt i) ∧ statusIsSuccess (st i) = false ∧
        statusKind (st i) ∉ nro.getD []) :
    countSleeps (do_request root method path params N delay nro context tr).2 = N := by
  have h := do_request_all_fail root method path params N delay nro context tr st txt
    hroot hbuilder hclone hN hfail
  exact h.2.2

/-- Witness for C7 (amended) at a concrete input: two attempts answering
HTTP 503 produce two sleeps. -/
theorem do_request_sleep_count_witness :
    countSleeps (do_request exampleRoot "GET" "/svc" none 2 5 none none
      ⟨none, true, fun _ => .response 503 (.ok "down")⟩).2 = 2 :=
  do_request_sleep_count exampleRoot "GET" "/svc" none 2 5 none none
    ⟨none, true, fun _ => .response 503 (.ok "down")⟩ (fun _ => 503) (fun _ => .ok "down")
    rfl rfl rfl (by omega)
    (fun i _ _ => ⟨rfl, rfl, List.not_mem_nil _⟩)

/-- C3 counterexample: endpoint answering HTTP 422 on every attempt,
retry_number = 2, no exemptions: the returned error's `"try"` detail is
2, not 1 — the loop overwrites `last_error` each failing attempt, so the
final attempt's error (with its own attempt number) is returned. -/
theorem do_request_unprocessable_try_cex :
    (match (do_request exampleRoot "GET" "/sdq" none 2 1 none none
        ⟨none, true, fun _ => .response 422 (.ok "err-body")⟩).1 with
      | .error e => detailGet e "try"
      | .ok _ => none) = some (.u64 2) ∧
    some (Value.u64 2) ≠ some (Value.u64 1) := by
  constructor
  · decide
  · decide

theorem ctxGet_insert_self (ctx : ContextMap) (k : String) (v : Value) :
    ctxGet (ctxInsert ctx k v) k = some v := by
  simp [ctxInsert, ctxGet]

/-- C3 (amended): when the endpoint returns HTTP 422 on every attempt, the
client has retry_number = 2 and no exemptions, the call returns a
classified error whose kind is Unprocessable-Entity and whose details
store the final attempt's number: the `"try"` key equals 2. -/
theorem do_request_unprocessable_try (root : UrlM) (method path : String)
    (params : Option (List (String × String))) (delay : Nat)
    (context : Option ContextMap) (tr : Transport)
    (txt : Nat → Except ReqwestError String)
    (hroot : root.cannot_be_base = false)
    (hbuilder : tr.builder_error = none)
    (hclone : tr.cloneable = true)
    (hout : ∀ i, tr.outcome i = .response 422 (txt i)) :
    ∃ e, (do_request root method path params 2 delay none context tr).1 = .error e ∧
      e.kind = UNPROCESSABLE_ENTITY ∧ detailGet e "try" = some (.u64 2) := by
  have h := do_request_all_fail root method path params 2 delay none context tr
    (fun _ => 422) txt hroot hbuilder hclone (by omega)
    (fun i _ _ => ⟨hout i, rfl, List.not_mem_nil _⟩)
  refine ⟨_, h.1, ?_, ?_⟩
  · rw [attemptError_kind]
    decide
  · simp [attemptError, http_resp_serialise, from_status, detailGet, ctxGet_insert_self]

/-- Witness for C3 (amended) at a concrete input. -/
theorem do_request_unprocessable_try_witness :
    ∃ e, (do_request exampleRoot "GET" "/sdq" none 2 1 none none
        ⟨none, true, fun _ => .response 422 (.ok "err-body")⟩).1 = .error e ∧
      e.kind = UNPROCESSABLE_ENTITY ∧ detailGet e "try" = some (.u64 2) :=
  do_request_unprocessable_try exampleRoot "GET" "/sdq" none 1 none
    ⟨none, true, fun _ => .response 422 (.ok "err-body")⟩ (fun _ => .ok "err-body")
    rfl rfl rfl (fun _ => rfl)

/-- One unfolding step of the loop on a non-success response whose kind is
retry-exempt: the error is returned at once after a single call, no sleep. -/
theorem runLoop_step_exempt (tr : Transport) (delay : Nat) (nro : Option (List ErrorKind))
    (ctx : ContextMap) (rem attempt : Nat) (lastErr : Option Error)
    (st : Nat) (txt : Except ReqwestError String)
    (hclone : tr.cloneable = true)
    (ho : tr.outcome attempt = .response st txt)
    (hs : statusIsSuccess st = false)
    (hk : statusKind st ∈ nro.getD []) :
    runLoop tr delay nro ctx (rem + 1) attempt lastErr =
      (.done (.error (attemptError st txt ctx attempt)), [.call attempt]) := by
  simp only [runLoop, hclone, if_true, ho, hs, Bool.false_eq_true, if_false]
  rw [if_pos (by simpa [http_resp_serialise, from_status] using hk)]
  rfl

/-- C2: for every client with retry_number = N ≥ 1, if the first attempt's
response carries a non-success status whose classified kind is in the
caller's no_retry_on list, `do_request` issues exactly one transport call
regardless of N and the returned error's `"try"` detail equals 1. -/
theorem do_request_exempt_short_circuit (root : UrlM) (method path : String)
    (params : Option (List (String × String))) (N delay : Nat)
    (nro : Option (List ErrorKind)) (context : Option ContextMap) (tr : Transport)
    (st : Nat) (txt : Except ReqwestError String)
    (hroot : root.cannot_be_base = false)
    (hbuilder : tr.builder_error = none)
    (hclone : tr.cloneable = true)
    (hN : 1 ≤ N)
    (hout : tr.outcome 1 = .response st txt)
    (hs : statusIsSuccess st = false)
    (hk : statusKind st ∈ nro.getD []) :
    ∃ e, (do_request root method path params N delay nro context tr).1 = .error e ∧
      countCalls (do_request root method path params N delay nro context tr).2 = 1 ∧
      detailGet e "try" = some (.u64 1) := by
  obtain ⟨r, rfl⟩ : ∃ r, N = r + 1 := ⟨N - 1, by omega⟩
  refine ⟨attemptError st txt (seedContext context (builtUrl root path params) method) 1,
    ?_, ?_, ?_⟩
  · simp only [do_request, build_url, hroot, Bool.false_eq_true, if_false, hbuilder,
      runLoop_step_exempt tr delay nro _ r 1 none st txt hclone hout hs hk]
  · simp only [do_request, build_url, hroot, Bool.false_eq_true, if_false, hbuilder,
      runLoop_step_exempt tr delay nro _ r 1 none st txt hclone hout hs hk]
    simp [countCalls_call_cons, countCalls_nil]
  · simp [attemptError, http_resp_serialise, from_status, detailGet, ctxGet_insert_self]

/-- Witness for C2 at a concrete input: HTTP 422 exempted from retry with
retry_number = 2. -/
theorem do_request_exempt_short_circuit_witness :
    ∃ e, (do_request exampleRoot "GET" "/sdq" none 2 1 (some [UNPROCESSABLE_ENTITY]) none
        ⟨none, true, fun _ => .response 422 (.ok "err-body")⟩).1 = .error e ∧
      countCalls (do_request exampleRoot "GET" "/sdq" none 2 1 (some [UNPROCESSABLE_ENTITY])
        none ⟨none, true, fun _ => .response 422 (.ok "err-body")⟩).2 = 1 ∧
      detailGet e "try" = some (.u64 1) :=
  do_request_exempt_short_circuit exampleRoot "GET" "/sdq" none 2 1
    (some [UNPROCESSABLE_ENTITY]) none
    ⟨none, true, fun _ => .response 422 (.ok "err-body")⟩ 422 (.ok "err-body")
    rfl rfl rfl (by omega) rfl rfl (by decide)

/-- One unfolding step of the loop on a send failure: the classified error
is returned through `?` after a single call, with no context (the
`_request_wrapper` passes `None`) and no sleep. -/
theorem runLoop_step_sendfail (tr : Transport) (delay : Nat) (nro : Option (List ErrorKind))
    (ctx : ContextMap) (rem attempt : Nat) (lastErr : Option Error) (e : ReqwestError)
    (hclone : tr.cloneable = true)
    (ho : tr.outcome attempt = .failure e) :
    runLoop tr delay nro ctx (rem + 1) attempt lastErr =
      (.done (.error (http_error_serialize e none)), [.call attempt]) := by
  simp only [runLoop, hclone, if_true, ho]

/-- After j retryable status failures, a send failure on the (j+1)-th
remaining attempt terminates the loop at once: j+1 calls, j sleeps
(between attempts only), and the send failure's classification is the
result. -/
theorem runLoop_send_failure (tr : Transport) (delay : Nat) (nro : Option (List ErrorKind))
    (ctx : ContextMap) (st : Nat → Nat) (txt : Nat → Except ReqwestError String)
    (e : ReqwestError) :
    ∀ (j rem attempt : Nat) (lastErr : Option Error),
      tr.cloneable = true → j < rem →
      (∀ i, attempt ≤ i → i < attempt + j →
        tr.outcome i = .response (st i) (txt i) ∧ statusIsSuccess (st i) = false ∧
          statusKind (st i) ∉ nro.getD []) →
      tr.outcome (attempt + j) = .failure e →
      (runLoop tr delay nro ctx rem attempt lastErr).1 =
        .done (.error (http_error_serialize e none)) ∧
      countCalls (runLoop tr delay nro ctx rem attempt lastErr).2 = j + 1 ∧
      countSleeps (runLoop tr delay nro ctx rem attempt lastErr).2 = j := by
  intro j
  induction j with
  | zero =>
    intro rem attempt lastErr hclone hlt hpre hf
    obtain ⟨r, rfl⟩ : ∃ r, rem = r + 1 := ⟨rem - 1, by omega⟩
    rw [runLoop_step_sendfail tr delay nro ctx r attempt lastErr e hclone hf]
    refine ⟨rfl, ?_, ?_⟩
    · simp [countCalls_call_cons, countCalls_nil]
    · simp [countSleeps_call_cons, countSleeps_nil]
  | succ jj ih =>
    intro rem attempt lastErr hclone hlt hpre hf
    obtain ⟨r, rfl⟩ : ∃ r, rem = r + 1 := ⟨rem - 1, by omega⟩
    obtain ⟨ho, hs, hk⟩ := hpre attempt (le_refl _) (by omega)
    rw [runLoop_step_fail tr delay nro ctx r attempt lastErr _ _ hclone ho hs hk]
    have hpre' : ∀ i, attempt + 1 ≤ i → i < (attempt + 1) + jj →
        tr.outcome i = .response (st i) (txt i) ∧ statusIsSuccess (st i) = false ∧
          statusKind (st i) ∉ nro.getD [] := by
      intro i h1 h2
      exact hpre i (by omega) (by omega)
    have hf' : tr.outcome ((attempt + 1) + jj) = .failure e := by
      have : (attempt + 1) + jj = attempt + (jj + 1) := by omega
      rw [this]
      exact hf
    have hrec := ih r (attempt + 1)
      (some (attemptError (st attempt) (txt attempt) ctx attempt)) hclone (by omega) hpre' hf'
    refine ⟨hrec.1, ?_, ?_⟩
    · rw [countCalls_call_cons, countCalls_sleep_cons, hrec.2.1]
    · rw [countSleeps_call_cons, countSleeps_sleep_cons, hrec.2.2]

/-- C4: a transport-level failure raised while sending (one carrying no
received HTTP status) on attempt k — after k-1 retryable status failures —
is classified and returned to the caller immediately from that attempt:
exactly k transport calls are issued, none after the failure. -/
theorem do_request_send_failure_immediate (root : UrlM) (method path : String)
    (params : Option (List (String × String))) (N delay : Nat)
    (nro : Option (List ErrorKind)) (context : Option ContextMap) (tr : Transport)
    (st : Nat → Nat) (txt : Nat → Except ReqwestError String) (e : ReqwestError) (k : Nat)
    (hroot : root.cannot_be_base = false)
    (hbuilder : tr.builder_error = none)
    (hclone : tr.cloneable = true)
    (hk1 : 1 ≤ k) (hkN : k ≤ N)
    (hstatus : e.status = none)
    (hpre : ∀ i, 1 ≤ i → i < k →
      tr.outcome i = .response (st i) (txt i) ∧ statusIsSuccess (st i) = false ∧
        statusKind (st i) ∉ nro.getD [])
    (hf : tr.outcome k = .failure e) :
    (do_request root method path params N delay nro context tr).1 =
      .error (http_error_serialize e none) ∧
    countCalls (do_request root method path params N delay nro context tr).2 = k := by
  obtain ⟨j, rfl⟩ : ∃ j, k = j + 1 := ⟨k - 1, by omega⟩
  have hf' : tr.outcome (1 + j) = .failure e := by
    have : 1 + j = j + 1 := by omega
    rw [this]
    exact hf
  have h := runLoop_send_failure tr delay nro
    (seedContext context (builtUrl root path params) method) st txt e j N 1 none
    hclone (by omega) (by intro i h1 h2; exact hpre i h1 (by omega)) hf'
  obtain ⟨r, rfl⟩ : ∃ r, N = r + 1 := ⟨N - 1, by omega⟩
  simp only [do_request, build_url, hroot, Bool.false_eq_true, if_false, hbuilder,
    h.1, h.2.1]
  exact ⟨trivial, trivial⟩

/-- Witness for C4 at a concrete input: attempt 1 fails with HTTP 500, the
send of attempt 2 times out; two calls in total out of five configured. -/
theorem do_request_send_failure_immediate_witness :
    (do_request exampleRoot "GET" "/x" none 5 1 none none
        ⟨none, true, fun i => if i = 2
          then .failure ⟨none, false, false, false, false, true, false, "timed out"⟩
          else .response 500 (.ok "boom")⟩).1 =
      .error (http_error_serialize
        ⟨none, false, false, false, false, true, false, "timed out"⟩ none) ∧
    countCalls (do_request exampleRoot "GET" "/x" none 5 1 none none
        ⟨none, true, fun i => if i = 2
          then .failure ⟨none, false, false, false, false, true, false, "timed out"⟩
          else .response 500 (.ok "boom")⟩).2 = 2 :=
  do_request_send_failure_immediate exampleRoot "GET" "/x" none 5 1 none none
    ⟨none, true, fun i => if i = 2
      then .failure ⟨none, false, false, false, false, true, false, "timed out"⟩
      else .response 500 (.ok "boom")⟩
    (fun _ => 500) (fun _ => .ok "boom")
    ⟨none, false, false, false, false, true, false, "timed out"⟩ 2
    rfl rfl rfl (by omega) (by omega) rfl
    (by
      intro i h1 h2
      have : i = 1 := by omega
      subst this
      exact ⟨rfl, rfl, List.not_mem_nil _⟩)
    rfl

/-- An error carrying both the `url` and the `method` key in its details. -/
def hasUrlMethod (e : Error) : Prop :=
  (detailGet e "url").isSome ∧ (detailGet e "method").isSome

/-- The error a `LoopResult` surfaces, when any. -/
def loopError : LoopResult → Option Error
  | .done (.error e) => some e
  | .done (.ok _) => none
  | .exhausted le => le

theorem ctxGet_insert_isSome (ctx : ContextMap) (k k' : String) (v : Value)
    (h : (ctxGet ctx k).isSome) : (ctxGet (ctxInsert ctx k' v) k).isSome := by
  simp only [ctxInsert, ctxGet]
  split
  · rfl
  · exact h

theorem seedContext_url_isSome (context : Option ContextMap) (url : UrlM) (method : String) :
    (ctxGet (seedContext context url method) "url").isSome := by
  simp [seedContext, ctxInsert, ctxGet]

theorem seedContext_method_isSome (context : Option ContextMap) (url : UrlM) (method : String) :
    (ctxGet (seedContext context url method) "method").isSome := by
  simp [seedContext, ctxInsert, ctxGet]

theorem http_error_serialize_details (e : ReqwestError) (ctx : ContextMap) :
    (http_error_serialize e (some ctx)).details = some ctx := by
  unfold http_error_serialize from_status
  cases e.status <;> simp <;> split_ifs <;> rfl

/-- Every error the retry loop can surface carries the seeded context (plus
possibly the attempt number), as long as no send-level failure occurs:
the send-failure path is the one classified with context `None`. -/
theorem runLoop_error_details (tr : Transport) (delay : Nat) (nro : Option (List ErrorKind))
    (ctx : ContextMap)
    (hnofail : ∀ i e, tr.outcome i ≠ .failure e)
    (hurl : (ctxGet ctx "url").isSome)
    (hmethod : (ctxGet ctx "method").isSome) :
    ∀ (rem attempt : Nat) (lastErr : Option Error),
      (∀ e, lastErr = some e → hasUrlMethod e) →
      ∀ e, loopError (runLoop tr delay nro ctx rem attempt lastErr).1 = some e →
        hasUrlMethod e := by
  intro rem
  induction rem with
  | zero =>
    intro attempt lastErr hlast e he
    simp only [runLoop, loopError] at he
    exact hlast e he
  | succ r ih =>
    intro attempt lastErr hlast e he
    by_cases hclone : tr.cloneable = true
    · cases houtcome : tr.outcome attempt with
      | failure e' => exact absurd houtcome (hnofail attempt e')
      | response stc txt =>
        cases hsucc : statusIsSuccess stc with
        | true =>
          cases txt with
          | ok s =>
            simp only [runLoop, hclone, if_true, houtcome, hsucc, loopError] at he
            exact absurd he (by simp)
          | error e2 =>
            simp only [runLoop, hclone, if_true, houtcome, hsucc, loopError,
              Option.some.injEq] at he
            subst he
            constructor
            · simpa [hasUrlMethod, detailGet, http_error_serialize_details] using hurl
            · simpa [hasUrlMethod, detailGet, http_error_serialize_details] using hmethod
        | false =>
          have hgood : hasUrlMethod (attemptError stc txt ctx attempt) := by
            constructor
            · simpa [hasUrlMethod, detailGet, attemptError, http_resp_serialise, from_status]
                using ctxGet_insert_isSome ctx "url" "try" (.u64 attempt) hurl
            · simpa [hasUrlMethod, detailGet, attemptError, http_resp_serialise, from_status]
                using ctxGet_insert_isSome ctx "method" "try" (.u64 attempt) hmethod
          by_cases hmem : statusKind stc ∈ nro.getD []
          · rw [runLoop_step_exempt tr delay nro ctx r attempt lastErr stc txt hclone
              houtcome hsucc hmem] at he
            simp only [loopError, Option.some.injEq] at he
            subst he
            exact hgood
          · rw [runLoop_step_fail tr delay nro ctx r attempt lastErr stc txt hclone
              houtcome hsucc hmem] at he
            exact ih (attempt + 1) (some (attemptError stc txt ctx attempt))
              (by intro e3 he3; cases he3; exact hgood) e he
    · have hcl : tr.cloneable = false := by
        cases h : tr.cloneable
        · rfl
        · exact absurd h hclone
      simp only [runLoop, hcl, Bool.false_eq_true, if_false, loopError,
        Option.some.injEq] at he
      subst he
      constructor
      · simpa [hasUrlMethod, detailGet] using hurl
      · simpa [hasUrlMethod, detailGet] using hmethod

/-- C5 counterexample: a connect failure while sending is classified with
context `None` (see `_request_wrapper`), so the returned error's details
are the empty map — it carries neither `url` nor `method`. -/
theorem do_request_details_cex :
    (do_request exampleRoot "GET" "/x" none 3 1 none none
        ⟨none, true, fun _ =>
          .failure ⟨none, false, false, false, true, false, false, "connect refused"⟩⟩).1 =
      .error (http_error_serialize
        ⟨none, false, false, false, true, false, false, "connect refused"⟩ none) ∧
    detailGet (http_error_serialize
      ⟨none, false, false, false, true, false, false, "connect refused"⟩ none) "url" = none ∧
    detailGet (http_error_serialize
      ⟨none, false, false, false, true, false, false, "connect refused"⟩ none) "method" =
      none := by
  refine ⟨?_, ?_, ?_⟩
  · decide
  · decide
  · decide

/-- C5 (amended): provided URL building succeeds and no transport-level send
failure occurs, every classified error returned by `do_request` — client
construction, non-success status, body read, clone failure, retry
exhaustion — carries the `url` and `method` keys in its details.  A send
failure is classified with context `None` and carries neither; a URL-build
failure carries no details at all. -/
theorem do_request_details_url_method (root : UrlM) (method path : String)
    (params : Option (List (String × String))) (N delay : Nat)
    (nro : Option (List ErrorKind)) (context : Option ContextMap) (tr : Transport)
    (hroot : root.cannot_be_base = false)
    (hnofail : ∀ i e, tr.outcome i ≠ .failure e) :
    ∀ e, (do_request root method path params N delay nro context tr).1 = .error e →
      hasUrlMethod e := by
  intro e he
  simp only [do_request, build_url, hroot, Bool.false_eq_true, if_false] at he
  cases hbe : tr.builder_error with
  | some be =>
    rw [hbe] at he
    simp only [Except.error.injEq] at he
    subst he
    constructor
    · simpa [hasUrlMethod, detailGet, http_error_serialize_details] using
        seedContext_url_isSome context (builtUrl root path params) method
    · simpa [hasUrlMethod, detailGet, http_error_serialize_details] using
        seedContext_method_isSome context (builtUrl root path params) method
  | none =>
    rw [hbe] at he
    cases hrun : (runLoop tr delay nro
        (seedContext context (builtUrl root path params) method) N 1 none).1 with
    | done r =>
      rw [hrun] at he
      cases r with
      | ok s => simp at he
      | error e2 =>
        simp only [Except.error.injEq] at he
        subst he
        exact runLoop_error_details tr delay nro _ hnofail
          (seedContext_url_isSome context (builtUrl root path params) method)
          (seedContext_method_isSome context (builtUrl root path params) method)
          N 1 none (by intro e3 he3; cases he3) e2 (by rw [hrun]; rfl)
    | exhausted le =>
      rw [hrun] at he
      cases le with
      | some err =>
        simp only [Except.error.injEq] at he
        subst he
        exact runLoop_error_details tr delay nro _ hnofail
          (seedContext_url_isSome context (builtUrl root path params) method)
          (seedContext_method_isSome context (builtUrl root path params) method)
          N 1 none (by intro e3 he3; cases he3) err (by rw [hrun]; rfl)
      | none =>
        simp only [Except.error.injEq] at he
        subst he
        constructor
        · simpa [hasUrlMethod, detailGet] using
            seedContext_url_isSome context (builtUrl root path params) method
        · simpa [hasUrlMethod, detailGet] using
            seedContext_method_isSome context (builtUrl root path params) method

/-- Witness for C5 (amended) at a concrete input: a permanently failing
endpoint's final error still carries url and method. -/
theorem do_request_details_url_method_witness :
    hasUrlMethod (attemptError 422 (.ok "err-body")
      (seedContext none (builtUrl exampleRoot "/sdq" none) "GET") 2) :=
  do_request_details_url_method exampleRoot "GET" "/sdq" none 2 1 none none
    ⟨none, true, fun _ => .response 422 (.ok "err-body")⟩ rfl
    (by intro i e h; cases h)
    (attemptError 422 (.ok "err-body")
      (seedContext none (builtUrl exampleRoot "/sdq" none) "GET") 2)
    (by decide)

/-- C6 counterexample: a transport failure with no status that is only a
generic request failure (`is_request`) is classified as the NetworkError
kind (`NETWORK_CONNECTION`), not as `REQUEST_ERROR` — the `is_request`
arm of `http_error_serialize` builds a `NetworkError`. -/
theorem http_error_serialize_request_cex :
    (http_error_serialize ⟨none, false, false, false, false, false, true, "oops"⟩ none).kind =
      NETWORK_CONNECTION ∧
    NETWORK_CONNECTION ≠ REQUEST_ERROR := by
  constructor
  · decide
  · decide

/-- C6 (amended): a transport failure carrying no status code that is not a
builder, body/decode, connect or timeout failure but is a generic request
failure is classified with the NetworkError kind (`NETWORK_CONNECTION` —
the same kind as connect/timeout; the declared `REQUEST_ERROR` kind is
never produced); only an uncategorizable failure falls back to
`UNKNOWN_ERROR` (UnexpectedError). -/
theorem http_error_serialize_request_kind (e : ReqwestError) (context : Option ContextMap)
    (hst : e.status = none)
    (hb : e.is_builder = false)
    (hbody : e.is_body = false)
    (hdec : e.is_decode = false)
    (hcon : e.is_connect = false)
    (hto : e.is_timeout = false) :
    (e.is_request = true →
      (http_error_serialize e context).kind = NETWORK_CONNECTION) ∧
    (e.is_request = false →
      (http_error_serialize e context).kind = UNKNOWN_ERROR) := by
  constructor
  · intro hr
    simp [http_error_serialize, hst, hb, hbody, hdec, hcon, hto, hr]
  · intro hr
    simp [http_error_serialize, hst, hb, hbody, hdec, hcon, hto, hr]

/-- Witness for C6 (amended) at a concrete input. -/
theorem http_error_serialize_request_kind_witness :
    ((⟨none, false, false, false, false, false, true, "oops"⟩ : ReqwestError).is_request = true →
      (http_error_serialize ⟨none, false, false, false, false, false, true, "oops"⟩ none).kind =
        NETWORK_CONNECTION) ∧
    ((⟨none, false, false, false, false, false, true, "oops"⟩ : ReqwestError).is_request = false →
      (http_error_serialize ⟨none, false, false, false, false, false, true, "oops"⟩ none).kind =
        UNKNOWN_ERROR) :=
  http_error_serialize_request_kind ⟨none, false, false, false, false, false, true, "oops"⟩
    none rfl rfl rfl rfl rfl rfl

theorem charsLe_total : ∀ a b : List Char, charsLe a b = true ∨ charsLe b a = true
  | [], _ => Or.inl rfl
  | _ :: _, [] => Or.inr rfl
  | a :: as, b :: bs => by
    rcases lt_trichotomy a b with h | h | h
    · left
      simp [charsLe, h]
    · subst h
      rcases charsLe_total as bs with ih | ih
      · left
        simp [charsLe, lt_irrefl, ih]
      · right
        simp [charsLe, lt_irrefl, ih]
    · right
      simp [charsLe, h]

theorem charsLe_trans : ∀ a b c : List Char,
    charsLe a b = true → charsLe b c = true → charsLe a c = true
  | [], _, _, _, _ => rfl
  | _ :: _, [], _, h1, _ => by simp [charsLe] at h1
  | _ :: _, _ :: _, [], _, h2 => by simp [charsLe] at h2
  | a :: as, b :: bs, c :: cs, h1, h2 => by
    rcases lt_trichotomy a b with hab | hab | hab
    · rcases lt_trichotomy b c with hbc | hbc | hbc
      · simp [charsLe, lt_trans hab hbc]
      · subst hbc
        simp [charsLe, hab]
      · exfalso
        simp [charsLe, lt_asymm hbc, hbc] at h2
    · subst hab
      rcases lt_trichotomy a c with hac | hac | hac
      · simp [charsLe, hac]
      · subst hac
        simp only [charsLe, lt_irrefl, if_false] at h1 h2 ⊢
        exact charsLe_trans as bs cs h1 h2
      · exfalso
        simp [charsLe, lt_asymm hac, hac] at h2
    · exfalso
      simp [charsLe, lt_asymm hab, hab] at h1

theorem charsLe_antisymm : ∀ a b : List Char,
    charsLe a b = true → charsLe b a = true → a = b
  | [], [], _, _ => rfl
  | [], _ :: _, _, h2 => by simp [charsLe] at h2
  | _ :: _, [], h1, _ => by simp [charsLe] at h1
  | a :: as, b :: bs, h1, h2 => by
    rcases lt_trichotomy a b with h | h | h
    · exfalso
      simp [charsLe, lt_asymm h, h] at h2
    · subst h
      simp only [charsLe, lt_irrefl, if_false] at h1 h2
      rw [charsLe_antisymm as bs h1 h2]
    · exfalso
      simp [charsLe, lt_asymm h, h] at h1

instance : IsTotal (String × String) keyLe :=
  ⟨fun p q => charsLe_total p.1.toList q.1.toList⟩

instance : IsTrans (String × String) keyLe :=
  ⟨fun _ _ _ h1 h2 => charsLe_trans _ _ _ h1 h2⟩

/-- The key order strengthened with key-distinctness: antisymmetric, hence
usable to show two sorted permutations coincide. -/
def keyLeNe (p q : String × String) : Prop := keyLe p q ∧ p.1 ≠ q.1

instance : IsAntisymm (String × String) keyLeNe :=
  ⟨fun a b h1 h2 =>
    absurd (String.toList_inj.mp (charsLe_antisymm _ _ h1.1 h2.1)) h1.2⟩

theorem sorted_keyLeNe {l : List (String × String)} (hs : l.Sorted keyLe)
    (hnd : (l.map Prod.fst).Nodup) : l.Sorted keyLeNe := by
  have hpw : l.Pairwise fun p q => p.1 ≠ q.1 := by
    rw [List.Nodup, List.pairwise_map] at hnd
    exact hnd
  exact (List.Pairwise.and hs hpw).imp fun h => ⟨h.1, h.2⟩

/-- Determinism of the key sort: two permutations of a pairwise-distinct-key
list (the iteration orders a `HashMap` may present) sort identically. -/
theorem sortByKey_perm_eq {l₁ l₂ : List (String × String)} (hp : l₁.Perm l₂)
    (hnd : (l₁.map Prod.fst).Nodup) : sortByKey l₁ = sortByKey l₂ := by
  have hp' : (sortByKey l₁).Perm (sortByKey l₂) :=
    (List.perm_insertionSort keyLe l₁).trans
      (hp.trans (List.perm_insertionSort keyLe l₂).symm)
  have hnd₁ : ((sortByKey l₁).map Prod.fst).Nodup :=
    (((List.perm_insertionSort keyLe l₁).map Prod.fst).nodup_iff).mpr hnd
  have hnd₂ : ((sortByKey l₂).map Prod.fst).Nodup :=
    ((hp'.map Prod.fst).nodup_iff).mp hnd₁
  exact List.eq_of_perm_of_sorted hp'
    (sorted_keyLeNe (List.sorted_insertionSort keyLe l₁) hnd₁)
    (sorted_keyLeNe (List.sorted_insertionSort keyLe l₂) hnd₂)

/-- C8: `build_url` appends the query pairs sorted by key, so two builds
from maps holding the same key/value set (presented in different orders)
produce the same URL value and byte-identical rendered URLs; and for root
`https://api.example.com`, path `/users/search`, params
`{page: 1, limit: 10}` the query string is exactly `limit=10&page=1`. -/
theorem build_url_sorted_deterministic :
    (∀ (root : UrlM) (path : String) (l₁ l₂ : List (String × String)),
      l₁.Perm l₂ → (l₁.map Prod.fst).Nodup →
      build_url root path (some l₁) = build_url root path (some l₂) ∧
      renderUrl (builtUrl root path (some l₁)) = renderUrl (builtUrl root path (some l₂))) ∧
    renderQuery (builtUrl exampleRoot "/users/search"
      (some [("page", "1"), ("limit", "10")])).query = "limit=10&page=1" := by
  constructor
  · intro root path l₁ l₂ hp hnd
    have hb : builtUrl root path (some l₁) = builtUrl root path (some l₂) := by
      simp [builtUrl, sortByKey_perm_eq hp hnd]
    constructor
    · simp [build_url, hb]
    · rw [hb]
  · decide

/-- Witness for C8 at a concrete input: the two insertion orders of
`{page: 1, limit: 10}` build identical URLs. -/
theorem build_url_sorted_deterministic_witness :
    build_url exampleRoot "/users/search" (some [("page", "1"), ("limit", "10")]) =
      build_url exampleRoot "/users/search" (some [("limit", "10"), ("page", "1")]) ∧
    renderUrl (builtUrl exampleRoot "/users/search" (some [("page", "1"), ("limit", "10")])) =
      renderUrl (builtUrl exampleRoot "/users/search" (some [("limit", "10"), ("page", "1")])) :=
  build_url_sorted_deterministic.1 exampleRoot "/users/search"
    [("page", "1"), ("limit", "10")] [("limit", "10"), ("page", "1")]
    (by decide) (by decide)

/-- No HTTP-status kind coincides with the JSON data kind: every table entry
and the fallback carry an `Err-` identifier, `DataError` a `JSON-` one. -/
theorem statusKind_ne_DataError (n : Nat) : statusKind n ≠ DataError := by
  unfold statusKind
  cases hf : statusKinds.find? fun p => p.1 == n with
  | none => decide
  | some p =>
    have hm : p ∈ statusKinds := List.mem_of_find?_eq_some hf
    have hall : ∀ q ∈ statusKinds, q.2 ≠ DataError := by decide
    exact hall p hm

/-- C9: for every typed `RestClient::get` whose HTTP exchange succeeds but
whose response body decodes to a data-shaped failure (valid JSON of the
wrong shape for `R`), the call returns an error of kind `DataError`
(JsonDataError) — a kind distinct from the network kind and from every
HTTP-status kind. -/
theorem rest_get_json_data_error {R : Type} (root : UrlM) (path : String)
    (params : Option (List (String × String))) (N delay : Nat)
    (nro : Option (List ErrorKind)) (context : Option ContextMap) (tr : Transport)
    (decode : String → Except JsonError R) (body : String) (je : JsonError)
    (hexec : (do_request root "GET" path params N delay nro context tr).1 = .ok body)
    (hdec : decode body = .error je)
    (hcat : je.category = .data) :
    ∃ e, rest_get root path params N delay nro context tr decode = .error e ∧
      e.kind = DataError ∧ e.kind ≠ NETWORK_CONNECTION ∧ ∀ n, e.kind ≠ statusKind n := by
  refine ⟨json_error_serialize je
      (some (context.getD (create_context (renderUrl root) path "GET"))), ?_, ?_, ?_, ?_⟩
  · simp only [rest_get, hexec, hdec]
  · simp [json_error_serialize, hcat]
  · simp [json_error_serialize, hcat]
    decide
  · intro n
    simp only [json_error_serialize, hcat]
    exact fun h => statusKind_ne_DataError n h.symm

/-- Witness for C9 at a concrete input: a 200 response whose body decodes to
a data-category failure. -/
theorem rest_get_json_data_error_witness :
    ∃ e, rest_get exampleRoot "/todos/1" none 2 1 none none
        ⟨none, true, fun _ => .response 200 (.ok "{}")⟩
        (fun _ => (.error ⟨.data, "missing field"⟩ : Except JsonError Nat)) = .error e ∧
      e.kind = DataError ∧ e.kind ≠ NETWORK_CONNECTION ∧ ∀ n, e.kind ≠ statusKind n :=
  rest_get_json_data_error exampleRoot "/todos/1" none 2 1 none none
    ⟨none, true, fun _ => .response 200 (.ok "{}")⟩
    (fun _ => (.error ⟨.data, "missing field"⟩ : Except JsonError Nat)) "{}"
    ⟨.data, "missing field"⟩ (by decide) rfl rfl

/-- C10: for every root URL string that parses successfully (and a valid
user-agent value), `RestClient::new` yields a client whose default header
set contains `Content-Type: application/json` and
`Accept: application/json` in addition to the `User-Agent` header,
whereas `HttpClient::new` installs only the `User-Agent` header. -/
theorem client_new_default_headers (raw : String) (u : UrlM) (ua : String)
    (hua : isValidHeaderValue ua = true) :
    (∃ rc, RestClient_new raw (some u) ua = .ok rc ∧
      ("content-type", "application/json") ∈ rc.headers ∧
      ("accept", "application/json") ∈ rc.headers ∧
      ("user-agent", ua) ∈ rc.headers) ∧
    (∃ hc, HttpClient_new raw (some u) ua = .ok hc ∧
      hc.headers = [("user-agent", ua)]) := by
  constructor
  · refine ⟨⟨u, 10, [("user-agent", ua), ("content-type", "application/json"),
      ("accept", "application/json")], true, 10, 30⟩, ?_, ?_, ?_, ?_⟩
    · simp only [RestClient_new, hua, if_true]
    · simp
    · simp
    · simp
  · refine ⟨⟨u, 10, [("user-agent", ua)], true, 10, 30⟩, ?_, ?_⟩
    · simp only [HttpClient_new, hua, if_true]
    · rfl

/-- Witness for C10 at a concrete input. -/
theorem client_new_default_headers_witness :
    (∃ rc, RestClient_new "https://api.example.com" (some exampleRoot)
        "cdumay_http_client/1.0" = .ok rc ∧
      ("content-type", "application/json") ∈ rc.headers ∧
      ("accept", "application/json") ∈ rc.headers ∧
      ("user-agent", "cdumay_http_client/1.0") ∈ rc.headers) ∧
    (∃ hc, HttpClient_new "https://api.example.com" (some exampleRoot)
        "cdumay_http_client/1.0" = .ok hc ∧
      hc.headers = [("user-agent", "cdumay_http_client/1.0")]) :=
  client_new_default_headers "https://api.example.com" exampleRoot
    "cdumay_http_client/1.0" (by decide)

end CdumayHttp
